import Mathlib

/-!
Shallow embedding of the configuration and search-space core of
`src/app.py` (Energy Modeling Optimizer).

Numeric fields that are Python floats in the source are modelled as exact
rationals (`ℚ`); Python's `int(...)` conversion (truncation toward zero)
is modelled by `pyInt`.  Streamlit session state is modelled as an
explicit record `SessionState`, and each save-button handler as a
function from state to state.
-/

namespace EnergyOptimizer

/-- Python `int(q)` applied to a real-valued expression: truncation toward
zero (floor for nonnegative arguments, ceiling for negative ones). -/
def pyInt (q : ℚ) : ℤ :=
  if q < 0 then ⌈q⌉ else ⌊q⌋

/-- Configuration record for solar PV and wind components: the dict shape
created at `src/app.py` lines 301-311 (`enabled, min, max, step, capex,
opex, lifetime, profile`). -/
structure GenConfig where
  enabled : Bool
  min : ℚ
  max : ℚ
  step : ℚ
  capex : ℚ
  opex : ℚ
  lifetime : ℤ
  profile : Option String
  deriving DecidableEq, Repr

/-- Configuration record for the hydro component (`src/app.py` lines
313-317): the generation fields plus `hours_per_day`. -/
structure HydroConfig where
  enabled : Bool
  min : ℚ
  max : ℚ
  step : ℚ
  hours_per_day : ℤ
  capex : ℚ
  opex : ℚ
  lifetime : ℤ
  profile : Option String
  deriving DecidableEq, Repr

/-- Configuration record for the BESS component (`src/app.py` lines
319-325). -/
structure BessConfig where
  enabled : Bool
  min_power : ℚ
  max_power : ℚ
  step_power : ℚ
  duration : ℚ
  min_soc : ℤ
  max_soc : ℤ
  charge_eff : ℤ
  discharge_eff : ℤ
  power_capex : ℚ
  energy_capex : ℚ
  opex : ℚ
  lifetime : ℤ
  deriving DecidableEq, Repr

/-- The Streamlit session state of `src/app.py`: the four component
configs, the load-profile reference, the target-unmet-load setting and
the `selected_component` edit marker. -/
structure SessionState where
  pv_config : GenConfig
  wind_config : GenConfig
  hydro_config : HydroConfig
  bess_config : BessConfig
  load_profile : Option String
  target_unmet : ℚ
  discount_rate : ℚ
  inflation_rate : ℚ
  project_lifetime : ℤ
  selected_component : Option String
  deriving DecidableEq, Repr

/-- Per-component option count for PV/wind-shaped configs, as computed in
the sidebar (`src/app.py` lines 824-827):
`int((max - min) / step) + 1 if enabled and step > 0 else 1`. -/
def option_count (c : GenConfig) : ℤ :=
  if c.enabled ∧ 0 < c.step then pyInt ((c.max - c.min) / c.step) + 1 else 1

/-- Option count for the hydro config (`src/app.py` lines 828-829). -/
def hydro_option_count (c : HydroConfig) : ℤ :=
  if c.enabled ∧ 0 < c.step then pyInt ((c.max - c.min) / c.step) + 1 else 1

/-- Option count for the BESS config over its power range (`src/app.py`
lines 830-831). -/
def bess_option_count (c : BessConfig) : ℤ :=
  if c.enabled ∧ 0 < c.step_power then
    pyInt ((c.max_power - c.min_power) / c.step_power) + 1
  else 1

/-- Sidebar `pv_opts` (`src/app.py` lines 824-825). -/
def pv_opts (s : SessionState) : ℤ := option_count s.pv_config

/-- Sidebar `wind_opts` (`src/app.py` lines 826-827). -/
def wind_opts (s : SessionState) : ℤ := option_count s.wind_config

/-- Sidebar `hydro_opts` (`src/app.py` lines 828-829). -/
def hydro_opts (s : SessionState) : ℤ := hydro_option_count s.hydro_config

/-- Sidebar `bess_opts` (`src/app.py` lines 830-831). -/
def bess_opts (s : SessionState) : ℤ := bess_option_count s.bess_config

/-- Sidebar `total_combinations = pv_opts * wind_opts * hydro_opts *
bess_opts` (`src/app.py` line 833). -/
def total_combinations (s : SessionState) : ℤ :=
  pv_opts s * wind_opts s * hydro_opts s * bess_opts s

/-- Sidebar estimated runtime in minutes (`src/app.py` line 842):
`est_time = max(1, total_combinations * 0.05 / 60)`. -/
def est_time (total : ℤ) : ℚ :=
  max 1 ((total : ℚ) * (5 / 100) / 60)

/-- Search-space band classification shown next to each component's
option count (`src/app.py` lines 419-424): `<= 10` small, `<= 50`
medium, otherwise large. -/
def band (n : ℤ) : String :=
  if n ≤ 10 then "small" else if n ≤ 50 then "medium" else "large"

/-- The fixed node set with normalized 2-D coordinates of the topology
diagram (`src/app.py` lines 118-125, the `nodes` dict of
`create_interactive_topology`). -/
def topologyNodes : List (String × ℚ × ℚ) :=
  [("pv", 0.15, 0.85), ("wind", 0.15, 0.5), ("hydro", 0.15, 0.15),
   ("bus", 0.5, 0.5), ("bess", 0.75, 0.5), ("load", 0.95, 0.5)]

/-- The `colors` dict of `create_interactive_topology` (`src/app.py`
lines 128-135), as a function from node name to color: enabled-dependent
for pv/wind/hydro/bess, fixed for bus and load. -/
def nodeColor (pv wind : GenConfig) (hydro : HydroConfig) (bess : BessConfig)
    (node : String) : String :=
  if node = "pv" then (if pv.enabled then "#FDB462" else "#555555")
  else if node = "wind" then (if wind.enabled then "#80B1D3" else "#555555")
  else if node = "hydro" then (if hydro.enabled then "#8DD3C7" else "#555555")
  else if node = "bus" then "#FFD700"
  else if node = "bess" then (if bess.enabled then "#FB8072" else "#555555")
  else "#B3DE69"

/-- The `edges` list of `create_interactive_topology` (`src/app.py` lines
138-149): `(start_node, end_node, color)` triples, one per enabled
generation component, then the always-present bus→load edge, then the
bus→bess edge when BESS is enabled. -/
def topologyEdges (pv wind : GenConfig) (hydro : HydroConfig)
    (bess : BessConfig) : List (String × String × String) :=
  (if pv.enabled then [("pv", "bus", "#FDB462")] else []) ++
  (if wind.enabled then [("wind", "bus", "#80B1D3")] else []) ++
  (if hydro.enabled then [("hydro", "bus", "#8DD3C7")] else []) ++
  [("bus", "load", "#FFD700")] ++
  (if bess.enabled then [("bus", "bess", "#FB8072")] else [])

/-- Marker opacity of a topology node (`src/app.py` lines 237-239):
`1.0` for bus/load or an enabled component, `0.4` otherwise. -/
def nodeOpacity (pv wind : GenConfig) (hydro : HydroConfig)
    (bess : BessConfig) (node : String) : ℚ :=
  if node = "bus" ∨ node = "load" ∨ (node = "pv" ∧ pv.enabled) ∨
     (node = "wind" ∧ wind.enabled) ∨ (node = "hydro" ∧ hydro.enabled) ∨
     (node = "bess" ∧ bess.enabled) then 1 else 0.4

/-- The "Save Solar PV Configuration" button handler (`src/app.py` lines
446-454): unconditionally assigns the freshly built config dict to
`st.session_state.pv_config` and deletes `selected_component`.  No
validation is performed anywhere on this path. -/
def savePvConfig (s : SessionState) (c : GenConfig) : SessionState :=
  { s with pv_config := c, selected_component := none }

/-- The "Save Wind Configuration" button handler (`src/app.py` lines
518-526). -/
def saveWindConfig (s : SessionState) (c : GenConfig) : SessionState :=
  { s with wind_config := c, selected_component := none }

/-- The "Save Hydro Configuration" button handler (`src/app.py` lines
594-602). -/
def saveHydroConfig (s : SessionState) (c : HydroConfig) : SessionState :=
  { s with hydro_config := c, selected_component := none }

/-- The "Save BESS Configuration" button handler (`src/app.py` lines
682-692). -/
def saveBessConfig (s : SessionState) (c : BessConfig) : SessionState :=
  { s with bess_config := c, selected_component := none }

/-- The disabled-path "Save Configuration" handler for PV (`src/app.py`
lines 462-466): sets `pv_config['enabled'] = False` in place and deletes
`selected_component`. -/
def savePvDisabled (s : SessionState) : SessionState :=
  { s with pv_config := { s.pv_config with enabled := false },
           selected_component := none }

/-- The disabled-path "Save Configuration" handler for wind
(`src/app.py` lines 534-538). -/
def saveWindDisabled (s : SessionState) : SessionState :=
  { s with wind_config := { s.wind_config with enabled := false },
           selected_component := none }

/-- The disabled-path "Save Configuration" handler for hydro
(`src/app.py` lines 610-614). -/
def saveHydroDisabled (s : SessionState) : SessionState :=
  { s with hydro_config := { s.hydro_config with enabled := false },
           selected_component := none }

/-- The disabled-path "Save Configuration" handler for BESS
(`src/app.py` lines 700-704). -/
def saveBessDisabled (s : SessionState) : SessionState :=
  { s with bess_config := { s.bess_config with enabled := false },
           selected_component := none }

/-- The session-state defaults created at process start (`src/app.py`
lines 301-331). -/
def defaultState : SessionState where
  pv_config :=
    { enabled := true, min := 1, max := 5, step := 1,
      capex := 1000, opex := 10, lifetime := 25, profile := none }
  wind_config :=
    { enabled := true, min := 0, max := 3, step := 1,
      capex := 1200, opex := 15, lifetime := 20, profile := none }
  hydro_config :=
    { enabled := true, min := 0, max := 2, step := 1, hours_per_day := 8,
      capex := 2000, opex := 20, lifetime := 50, profile := none }
  bess_config :=
    { enabled := true, min_power := 5, max_power := 20, step_power := 5,
      duration := 4, min_soc := 20, max_soc := 100,
      charge_eff := 95, discharge_eff := 95,
      power_capex := 300, energy_capex := 200, opex := 2, lifetime := 15 }
  load_profile := none
  target_unmet := 1 / 10
  discount_rate := 8
  inflation_rate := 2
  project_lifetime := 25
  selected_component := none

/-- A PV spec with an inverted capacity range (min 5 MW, max 2 MW), as the
sliders at `src/app.py` lines 407-416 can produce. -/
def invertedPvSpec : GenConfig where
  enabled := true
  min := 5
  max := 2
  step := 1
  capex := 1000
  opex := 10
  lifetime := 25
  profile := none

/-- The default session state with all four components toggled off. -/
def allDisabledState : SessionState :=
  { defaultState with
      pv_config := { defaultState.pv_config with enabled := false },
      wind_config := { defaultState.wind_config with enabled := false },
      hydro_config := { defaultState.hydro_config with enabled := false },
      bess_config := { defaultState.bess_config with enabled := false } }

/-- Recognizer for an edge connecting the bus and the battery node in
either direction. -/
def isBusBessEdge (e : String × String × String) : Bool :=
  (e.1 == "bus" && e.2.1 == "bess") || (e.1 == "bess" && e.2.1 == "bus")

/-- Helper: Python truncation agrees with the floor on nonnegative
arguments. -/
lemma pyInt_eq_floor {q : ℚ} (h : 0 ≤ q) : pyInt q = ⌊q⌋ := by
  unfold pyInt
  rw [if_neg (not_lt.mpr h)]

/-- Helper: Python truncation of a nonnegative rational is nonnegative. -/
lemma pyInt_nonneg {q : ℚ} (h : 0 ≤ q) : 0 ≤ pyInt q := by
  rw [pyInt_eq_floor h]
  exact Int.floor_nonneg.mpr h

/-- Helper: a PV/wind-shaped spec with an ordered range yields at least
one option. -/
lemma option_count_pos {c : GenConfig} (h : c.min ≤ c.max) :
    1 ≤ option_count c := by
  unfold option_count
  split
  case isTrue hc =>
    have harg : 0 ≤ (c.max - c.min) / c.step :=
      div_nonneg (sub_nonneg.mpr h) hc.2.le
    have := pyInt_nonneg harg
    omega
  case isFalse hc => exact le_refl 1

/-- Helper: a hydro spec with an ordered range yields at least one
option. -/
lemma hydro_option_count_pos {c : HydroConfig} (h : c.min ≤ c.max) :
    1 ≤ hydro_option_count c := by
  unfold hydro_option_count
  split
  case isTrue hc =>
    have harg : 0 ≤ (c.max - c.min) / c.step :=
      div_nonneg (sub_nonneg.mpr h) hc.2.le
    have := pyInt_nonneg harg
    omega
  case isFalse hc => exact le_refl 1

/-- Helper: a BESS spec with an ordered power range yields at least one
option. -/
lemma bess_option_count_pos {c : BessConfig} (h : c.min_power ≤ c.max_power) :
    1 ≤ bess_option_count c := by
  unfold bess_option_count
  split
  case isTrue hc =>
    have harg : 0 ≤ (c.max_power - c.min_power) / c.step_power :=
      div_nonneg (sub_nonneg.mpr h) hc.2.le
    have := pyInt_nonneg harg
    omega
  case isFalse hc => exact le_refl 1

/-- Claim C1: per-component option counting.  A disabled spec contributes
exactly 1 option regardless of min/max/step; an enabled spec with
positive step contributes `⌊(max - min) / step⌋ + 1` options (on specs
satisfying the data-model invariant `capacity_min ≤ capacity_max`, where
Python's truncating `int()` agrees with the floor); an enabled spec with
nonpositive step contributes 1.  The same holds for the hydro and BESS
variants, and the concrete examples evaluate to
`option_count(0, 10, 1) = 11` and `option_count(0, 5, 2) = 3`. -/
theorem c1_option_count_contract :
    (∀ c : GenConfig, c.enabled = false → option_count c = 1) ∧
    (∀ c : GenConfig, c.enabled = true → 0 < c.step → c.min ≤ c.max →
      option_count c = ⌊(c.max - c.min) / c.step⌋ + 1) ∧
    (∀ c : GenConfig, c.enabled = true → c.step ≤ 0 → option_count c = 1) ∧
    (∀ c : HydroConfig, c.enabled = false → hydro_option_count c = 1) ∧
    (∀ c : HydroConfig, c.enabled = true → 0 < c.step → c.min ≤ c.max →
      hydro_option_count c = ⌊(c.max - c.min) / c.step⌋ + 1) ∧
    (∀ c : HydroConfig, c.enabled = true → c.step ≤ 0 →
      hydro_option_count c = 1) ∧
    (∀ c : BessConfig, c.enabled = false → bess_option_count c = 1) ∧
    (∀ c : BessConfig, c.enabled = true → 0 < c.step_power →
      c.min_power ≤ c.max_power →
      bess_option_count c = ⌊(c.max_power - c.min_power) / c.step_power⌋ + 1) ∧
    (∀ c : BessConfig, c.enabled = true → c.step_power ≤ 0 →
      bess_option_count c = 1) ∧
    option_count
      { enabled := true, min := 0, max := 10, step := 1,
        capex := 1000, opex := 10, lifetime := 25, profile := none } = 11 ∧
    option_count
      { enabled := true, min := 0, max := 5, step := 2,
        capex := 1000, opex := 10, lifetime := 25, profile := none } = 3 := by
  refine ⟨?_, ?_, ?_, ?_, ?_, ?_, ?_, ?_, ?_, ?_, ?_⟩
  · intro c h
    simp [option_count, h]
  · intro c he hs hm
    rw [option_count, if_pos ⟨he, hs⟩,
      pyInt_eq_floor (div_nonneg (sub_nonneg.mpr hm) hs.le)]
  · intro c he hs
    rw [option_count, if_neg fun hc => absurd hc.2 (not_lt.mpr hs)]
  · intro c h
    simp [hydro_option_count, h]
  · intro c he hs hm
    rw [hydro_option_count, if_pos ⟨he, hs⟩,
      pyInt_eq_floor (div_nonneg (sub_nonneg.mpr hm) hs.le)]
  · intro c he hs
    rw [hydro_option_count, if_neg fun hc => absurd hc.2 (not_lt.mpr hs)]
  · intro c h
    simp [bess_option_count, h]
  · intro c he hs hm
    rw [bess_option_count, if_pos ⟨he, hs⟩,
      pyInt_eq_floor (div_nonneg (sub_nonneg.mpr hm) hs.le)]
  · intro c he hs
    rw [bess_option_count, if_neg fun hc => absurd hc.2 (not_lt.mpr hs)]
  · norm_num [option_count, pyInt]
  · norm_num [option_count, pyInt]

/-- Witness for C1: the contract applied at concrete specs — the default
PV spec disabled gives 1 option, and the enabled branch evaluated at the
spec with min 1, max 5, step 1 gives the floor formula. -/
theorem c1_option_count_contract_witness :
    option_count { defaultState.pv_config with enabled := false } = 1 ∧
    option_count defaultState.pv_config =
      ⌊((5 : ℚ) - 1) / 1⌋ + 1 := by
  constructor
  · exact c1_option_count_contract.1
      { defaultState.pv_config with enabled := false } rfl
  · exact c1_option_count_contract.2.1 defaultState.pv_config rfl
      (by norm_num [defaultState]) (by norm_num [defaultState])

/-- Claim C6: the sidebar runtime estimator is the linear formula
`max(1, total * 0.05 / 60)` with a one-minute floor; at `total = 1` it is
1 and at `total = 120000` it is exactly 100 minutes. -/
theorem c6_est_time_contract :
    (∀ total : ℤ, est_time total = max 1 ((total : ℚ) * (5 / 100) / 60)) ∧
    est_time 1 = 1 ∧
    est_time 120000 = 100 :=
  ⟨fun _ => rfl, by norm_num [est_time], by norm_num [est_time]⟩

/-- Claim C7: the search-space band is "small" exactly when the count is
at most 10, "medium" exactly when it is between 11 and 50, and "large"
exactly when it exceeds 50. -/
theorem c7_band_thresholds (n : ℤ) :
    (band n = "small" ↔ n ≤ 10) ∧
    (band n = "medium" ↔ 11 ≤ n ∧ n ≤ 50) ∧
    (band n = "large" ↔ 50 < n) := by
  unfold band
  split
  case isTrue h =>
    refine ⟨by simp_all, ?_, ?_⟩ <;>
      constructor <;> intro hx <;> simp_all <;> omega
  case isFalse h =>
    split
    case isTrue h2 =>
      refine ⟨by simp_all, ?_, ?_⟩ <;>
        constructor <;> intro hx <;> simp_all <;> omega
    case isFalse h2 =>
      refine ⟨by simp_all, ?_, ?_⟩ <;>
        constructor <;> intro hx <;> simp_all <;> omega

/-- Claim C2: the sidebar total is the product of the four per-component
option counts, independent of multiplication order; it is 1 when all
four components are disabled, nonzero on stores whose specs satisfy the
data-model range invariant, and 11 when the PV count is 11 and the other
three counts are 1. -/
theorem c2_total_combinations_contract :
    (∀ s : SessionState, total_combinations s =
      pv_opts s * wind_opts s * hydro_opts s * bess_opts s) ∧
    (∀ (s : SessionState) (l : List ℤ),
      l.Perm [pv_opts s, wind_opts s, hydro_opts s, bess_opts s] →
      l.prod = total_combinations s) ∧
    (∀ s : SessionState,
      s.pv_config.enabled = false → s.wind_config.enabled = false →
      s.hydro_config.enabled = false → s.bess_config.enabled = false →
      total_combinations s = 1) ∧
    (∀ s : SessionState,
      s.pv_config.min ≤ s.pv_config.max →
      s.wind_config.min ≤ s.wind_config.max →
      s.hydro_config.min ≤ s.hydro_config.max →
      s.bess_config.min_power ≤ s.bess_config.max_power →
      total_combinations s ≠ 0) ∧
    (∀ s : SessionState,
      pv_opts s = 11 → wind_opts s = 1 → hydro_opts s = 1 →
      bess_opts s = 1 → total_combinations s = 11) := by
  refine ⟨fun s => rfl, ?_, ?_, ?_, ?_⟩
  · intro s l hl
    rw [hl.prod_eq]
    simp only [List.prod_cons, List.prod_nil, total_combinations, mul_one]
    ring
  · intro s h1 h2 h3 h4
    simp [total_combinations, pv_opts, wind_opts, hydro_opts, bess_opts,
      option_count, hydro_option_count, bess_option_count, h1, h2, h3, h4]
  · intro s h1 h2 h3 h4
    have p1 : (0 : ℤ) < option_count s.pv_config := option_count_pos h1
    have p2 : (0 : ℤ) < option_count s.wind_config := option_count_pos h2
    have p3 : (0 : ℤ) < hydro_option_count s.hydro_config :=
      hydro_option_count_pos h3
    have p4 : (0 : ℤ) < bess_option_count s.bess_config :=
      bess_option_count_pos h4
    have : (0 : ℤ) < total_combinations s :=
      mul_pos (mul_pos (mul_pos p1 p2) p3) p4
    omega
  · intro s h1 h2 h3 h4
    simp [total_combinations, h1, h2, h3, h4]

/-- Witness for C2: the total is 1 on the all-disabled store, nonzero on
the default store, and agrees with the product taken in the source's
order on the default store. -/
theorem c2_total_combinations_contract_witness :
    total_combinations allDisabledState = 1 ∧
    total_combinations defaultState ≠ 0 ∧
    [pv_opts defaultState, wind_opts defaultState, hydro_opts defaultState,
      bess_opts defaultState].prod = total_combinations defaultState := by
  refine ⟨?_, ?_, ?_⟩
  · exact c2_total_combinations_contract.2.2.1 allDisabledState rfl rfl rfl rfl
  · exact c2_total_combinations_contract.2.2.2.1 defaultState
      (by norm_num [defaultState]) (by norm_num [defaultState])
      (by norm_num [defaultState]) (by norm_num [defaultState])
  · exact c2_total_combinations_contract.2.1 defaultState _ (List.Perm.refl _)

/-- Counterexample for C3: saving the PV component with an inverted
capacity range (min 5, max 2) does not leave the stored spec unchanged —
the handler performs no validation, so the read after the save returns
the inverted spec instead of the pre-save snapshot. -/
theorem c3_save_no_validation_counterexample :
    (savePvConfig defaultState invertedPvSpec).pv_config ≠
      defaultState.pv_config ∧
    (savePvConfig defaultState invertedPvSpec).pv_config = invertedPvSpec := by
  refine ⟨?_, rfl⟩
  intro h
  have hmin := congrArg GenConfig.min h
  norm_num [savePvConfig, invertedPvSpec, defaultState] at hmin

/-- Claim C3 as amended: calling save on a component with an inverted
capacity range (min=5, max=2) performs no validation and returns no
error: the save succeeds, the stored spec is replaced by the submitted
inverted spec (a read after the save returns the new spec, not the
pre-save snapshot), and the selection marker is cleared. -/
theorem c3_save_inverted_range_replaces (s : SessionState) (c : GenConfig)
    (h : c.max < c.min) :
    (savePvConfig s c).pv_config = c ∧
    (savePvConfig s c).selected_component = none :=
  ⟨rfl, rfl⟩

/-- Witness for the amended C3: the inverted spec (max 2 < min 5) is
stored verbatim by the save handler and the marker is cleared. -/
theorem c3_save_inverted_range_replaces_witness :
    (savePvConfig defaultState invertedPvSpec).pv_config = invertedPvSpec ∧
    (savePvConfig defaultState invertedPvSpec).selected_component = none :=
  c3_save_inverted_range_replaces defaultState invertedPvSpec
    (by norm_num [invertedPvSpec])

/-- Claim C4: the topology graph has exactly the six fixed nodes pv,
wind, hydro, bus, bess, load; a component→bus edge exists exactly for
each enabled generation component; the bus→load edge is always present;
and the number of bus/bess edges is 1 when BESS is enabled and 0 when it
is disabled. -/
theorem c4_topology_nodes_edges (pv wind : GenConfig) (hydro : HydroConfig)
    (bess : BessConfig) :
    topologyNodes.map Prod.fst = ["pv", "wind", "hydro", "bus", "bess", "load"] ∧
    (("pv", "bus", "#FDB462") ∈ topologyEdges pv wind hydro bess ↔
      pv.enabled = true) ∧
    (("wind", "bus", "#80B1D3") ∈ topologyEdges pv wind hydro bess ↔
      wind.enabled = true) ∧
    (("hydro", "bus", "#8DD3C7") ∈ topologyEdges pv wind hydro bess ↔
      hydro.enabled = true) ∧
    ("bus", "load", "#FFD700") ∈ topologyEdges pv wind hydro bess ∧
    ((topologyEdges pv wind hydro bess).filter isBusBessEdge).length =
      if bess.enabled = true then 1 else 0 := by
  cases hpv : pv.enabled <;> cases hw : wind.enabled <;>
    cases hh : hydro.enabled <;> cases hb : bess.enabled <;>
    simp [topologyNodes, topologyEdges, isBusBessEdge, hpv, hw, hh, hb,
      List.filter]

/-- Claim C5: every save handler replaces the whole component spec in a
single state transition and clears the selection marker; the
disabled-path handlers produce exactly the whole-spec replacement of the
old spec with `enabled := false`, so no partial mutation is observable. -/
theorem c5_save_atomic_replacement :
    (∀ (s : SessionState) (c : GenConfig),
      (savePvConfig s c).pv_config = c ∧
      (savePvConfig s c).selected_component = none) ∧
    (∀ (s : SessionState) (c : GenConfig),
      (saveWindConfig s c).wind_config = c ∧
      (saveWindConfig s c).selected_component = none) ∧
    (∀ (s : SessionState) (c : HydroConfig),
      (saveHydroConfig s c).hydro_config = c ∧
      (saveHydroConfig s c).selected_component = none) ∧
    (∀ (s : SessionState) (c : BessConfig),
      (saveBessConfig s c).bess_config = c ∧
      (saveBessConfig s c).selected_component = none) ∧
    (∀ s : SessionState,
      (savePvDisabled s).pv_config = { s.pv_config with enabled := false } ∧
      (savePvDisabled s).selected_component = none) ∧
    (∀ s : SessionState,
      (saveWindDisabled s).wind_config =
        { s.wind_config with enabled := false } ∧
      (saveWindDisabled s).selected_component = none) ∧
    (∀ s : SessionState,
      (saveHydroDisabled s).hydro_config =
        { s.hydro_config with enabled := false } ∧
      (saveHydroDisabled s).selected_component = none) ∧
    (∀ s : SessionState,
      (saveBessDisabled s).bess_config =
        { s.bess_config with enabled := false } ∧
      (saveBessDisabled s).selected_component = none) :=
  ⟨fun _ _ => ⟨rfl, rfl⟩, fun _ _ => ⟨rfl, rfl⟩, fun _ _ => ⟨rfl, rfl⟩,
   fun _ _ => ⟨rfl, rfl⟩, fun _ => ⟨rfl, rfl⟩, fun _ => ⟨rfl, rfl⟩,
   fun _ => ⟨rfl, rfl⟩, fun _ => ⟨rfl, rfl⟩⟩

/-- Claim C8: node colors, node opacities and the edge list of the
topology graph are a deterministic function of the four enabled flags
alone — two stores with identical enabled flags (and arbitrary other
fields) produce identical presentational output. -/
theorem c8_presentation_deterministic (pva pvb winda windb : GenConfig)
    (hydroa hydrob : HydroConfig) (bessa bessb : BessConfig)
    (hpv : pva.enabled = pvb.enabled) (hw : winda.enabled = windb.enabled)
    (hh : hydroa.enabled = hydrob.enabled)
    (hb : bessa.enabled = bessb.enabled) :
    (∀ node, nodeColor pva winda hydroa bessa node =
      nodeColor pvb windb hydrob bessb node) ∧
    (∀ node, nodeOpacity pva winda hydroa bessa node =
      nodeOpacity pvb windb hydrob bessb node) ∧
    topologyEdges pva winda hydroa bessa =
      topologyEdges pvb windb hydrob bessb := by
  refine ⟨fun node => ?_, fun node => ?_, ?_⟩
  · simp only [nodeColor, hpv, hw, hh, hb]
  · simp only [nodeOpacity, hpv, hw, hh, hb]
  · simp only [topologyEdges, hpv, hw, hh, hb]

/-- Witness for C8: a PV spec differing from the default only in its
minimum capacity yields the same node color, opacity and edges as the
default store. -/
theorem c8_presentation_deterministic_witness :
    nodeColor { defaultState.pv_config with min := 3 }
      defaultState.wind_config defaultState.hydro_config
      defaultState.bess_config "pv" =
    nodeColor defaultState.pv_config defaultState.wind_config
      defaultState.hydro_config defaultState.bess_config "pv" :=
  (c8_presentation_deterministic
    { defaultState.pv_config with min := 3 } defaultState.pv_config
    defaultState.wind_config defaultState.wind_config
    defaultState.hydro_config defaultState.hydro_config
    defaultState.bess_config defaultState.bess_config
    rfl rfl rfl rfl).1 "pv"

/-- Claim C9: each component save handler writes only its own component's
spec (and the selection marker): the other three component specs, the
load-profile reference and the global settings are unchanged. -/
theorem c9_save_frame :
    (∀ (s : SessionState) (c : GenConfig),
      (savePvConfig s c).wind_config = s.wind_config ∧
      (savePvConfig s c).hydro_config = s.hydro_config ∧
      (savePvConfig s c).bess_config = s.bess_config ∧
      (savePvConfig s c).load_profile = s.load_profile ∧
      (savePvConfig s c).target_unmet = s.target_unmet ∧
      (savePvConfig s c).discount_rate = s.discount_rate ∧
      (savePvConfig s c).inflation_rate = s.inflation_rate ∧
      (savePvConfig s c).project_lifetime = s.project_lifetime) ∧
    (∀ (s : SessionState) (c : GenConfig),
      (saveWindConfig s c).pv_config = s.pv_config ∧
      (saveWindConfig s c).hydro_config = s.hydro_config ∧
      (saveWindConfig s c).bess_config = s.bess_config ∧
      (saveWindConfig s c).load_profile = s.load_profile ∧
      (saveWindConfig s c).target_unmet = s.target_unmet ∧
      (saveWindConfig s c).discount_rate = s.discount_rate ∧
      (saveWindConfig s c).inflation_rate = s.inflation_rate ∧
      (saveWindConfig s c).project_lifetime = s.project_lifetime) ∧
    (∀ (s : SessionState) (c : HydroConfig),
      (saveHydroConfig s c).pv_config = s.pv_config ∧
      (saveHydroConfig s c).wind_config = s.wind_config ∧
      (saveHydroConfig s c).bess_config = s.bess_config ∧
      (saveHydroConfig s c).load_profile = s.load_profile ∧
      (saveHydroConfig s c).target_unmet = s.target_unmet ∧
      (saveHydroConfig s c).discount_rate = s.discount_rate ∧
      (saveHydroConfig s c).inflation_rate = s.inflation_rate ∧
      (saveHydroConfig s c).project_lifetime = s.project_lifetime) ∧
    (∀ (s : SessionState) (c : BessConfig),
      (saveBessConfig s c).pv_config = s.pv_config ∧
      (saveBessConfig s c).wind_config = s.wind_config ∧
      (saveBessConfig s c).hydro_config = s.hydro_config ∧
      (saveBessConfig s c).load_profile = s.load_profile ∧
      (saveBessConfig s c).target_unmet = s.target_unmet ∧
      (saveBessConfig s c).discount_rate = s.discount_rate ∧
      (saveBessConfig s c).inflation_rate = s.inflation_rate ∧
      (saveBessConfig s c).project_lifetime = s.project_lifetime) :=
  ⟨fun _ _ => ⟨rfl, rfl, rfl, rfl, rfl, rfl, rfl, rfl⟩,
   fun _ _ => ⟨rfl, rfl, rfl, rfl, rfl, rfl, rfl, rfl⟩,
   fun _ _ => ⟨rfl, rfl, rfl, rfl, rfl, rfl, rfl, rfl⟩,
   fun _ _ => ⟨rfl, rfl, rfl, rfl, rfl, rfl, rfl, rfl⟩⟩

/-- Claim C10: an enabled spec satisfying the data-model invariants
(ordered range, positive step) yields at least one option — in fact any
spec with an ordered range does — and a store whose four specs satisfy
the invariants has at least one total combination. -/
theorem c10_search_space_nonempty :
    (∀ c : GenConfig, c.enabled = true → c.min ≤ c.max → 0 < c.step →
      1 ≤ option_count c) ∧
    (∀ c : HydroConfig, c.enabled = true → c.min ≤ c.max → 0 < c.step →
      1 ≤ hydro_option_count c) ∧
    (∀ c : BessConfig, c.enabled = true → c.min_power ≤ c.max_power →
      0 < c.step_power → 1 ≤ bess_option_count c) ∧
    (∀ s : SessionState,
      s.pv_config.min ≤ s.pv_config.max → 0 < s.pv_config.step →
      s.wind_config.min ≤ s.wind_config.max → 0 < s.wind_config.step →
      s.hydro_config.min ≤ s.hydro_config.max → 0 < s.hydro_config.step →
      s.bess_config.min_power ≤ s.bess_config.max_power →
      0 < s.bess_config.step_power →
      1 ≤ total_combinations s) := by
  refine ⟨fun c _ h _ => option_count_pos h,
    fun c _ h _ => hydro_option_count_pos h,
    fun c _ h _ => bess_option_count_pos h,
    ?_⟩
  intro s h1 _ h2 _ h3 _ h4 _
  have p1 : (0 : ℤ) < option_count s.pv_config := option_count_pos h1
  have p2 : (0 : ℤ) < option_count s.wind_config := option_count_pos h2
  have p3 : (0 : ℤ) < hydro_option_count s.hydro_config :=
    hydro_option_count_pos h3
  have p4 : (0 : ℤ) < bess_option_count s.bess_config :=
    bess_option_count_pos h4
  have : (0 : ℤ) < total_combinations s :=
    mul_pos (mul_pos (mul_pos p1 p2) p3) p4
  omega

/-- Witness for C10: the default store satisfies the invariants and has
at least one combination, and the default PV spec yields at least one
option. -/
theorem c10_search_space_nonempty_witness :
    1 ≤ option_count defaultState.pv_config ∧
    1 ≤ total_combinations defaultState := by
  constructor
  · exact c10_search_space_nonempty.1 defaultState.pv_config rfl
      (by norm_num [defaultState]) (by norm_num [defaultState])
  · exact c10_search_space_nonempty.2.2.2 defaultState
      (by norm_num [defaultState]) (by norm_num [defaultState])
      (by norm_num [defaultState]) (by norm_num [defaultState])
      (by norm_num [defaultState]) (by norm_num [defaultState])
      (by norm_num [defaultState]) (by norm_num [defaultState])

end EnergyOptimizer
